import Mathlib

/-!
Verification of the cache-or-generate orchestration layer of the
travel-backend repository (`app.py` / `database.py`).

The embedding below is a shallow, state-passing translation of the Python
source.  External collaborators (the generative backend, the Wikipedia HTTP
call, the `json.loads` parser, the success or failure of a database commit)
are passed in as explicit inputs describing the outcome of each call, so
that the orchestration logic of the repository itself is what the Lean
functions compute.
-/

set_option autoImplicit false

namespace Travel

/-- A row of the `Place` table of `database.py`: `name` is unique,
`description` and `image_url` are nullable columns. -/
structure Place where
  name : String
  description : Option String
  image_url : Option String
deriving DecidableEq, Repr

/-- A place record as it appears inside the JSON `results` column of the
`Cache` table and inside the `/search-places` response: the fields produced
by the enrichment loop of `search_places` in `app.py`. -/
structure PlaceSummary where
  name : String
  description : String
  image_url : Option String
  has_details : Bool
deriving DecidableEq, Repr

/-- A row of the `Cache` table of `database.py`: `search_term` is unique,
`results` is the stored JSON list of places. -/
structure Cache where
  search_term : String
  results : List PlaceSummary
deriving DecidableEq, Repr

/-- The persistent database state: the two tables of `database.py`,
as association lists (first match wins, mirroring `.first()`). -/
structure DB where
  caches : List Cache
  places : List Place
deriving DecidableEq, Repr

/-- Python truthiness of an optional list (`if cached_places:` in `app.py`):
`None` and the empty list are falsy. -/
def truthyList {α : Type} : Option (List α) → Bool
  | some l => !l.isEmpty
  | none => false

/-- Python truthiness of an optional string (`if image_url:` /
`if cached_details:`): `None` and the empty string are falsy. -/
def truthyStr : Option String → Bool
  | some s => !s.isEmpty
  | none => false

/-- `get_cached_search` of `database.py`: `Cache.query.filter_by(
search_term=location).first()`, returning `cache_entry.results` when a row
exists and `None` otherwise.  Note that an existing row with an empty list
yields `some []`, exactly as the Python returns `[]` (not `None`). -/
def get_cached_search (db : DB) (location : String) : Option (List PlaceSummary) :=
  match db.caches.find? (fun c => c.search_term == location) with
  | some c => some c.results
  | none => none

/-- The upsert of `save_search_result` on the `caches` list: replace the
`results` of the first row whose `search_term` matches, otherwise append a
new row (the ORM insert). -/
def putSearchList (location : String) (places : List PlaceSummary) :
    List Cache → List Cache
  | [] => [⟨location, places⟩]
  | c :: cs =>
    if c.search_term == location then { c with results := places } :: cs
    else c :: putSearchList location places cs

/-- `save_search_result` of `database.py`: upsert of the search cache row
for `location`, replacing `results` wholesale. -/
def save_search_result (db : DB) (location : String)
    (places : List PlaceSummary) : DB :=
  { db with caches := putSearchList location places db.caches }

/-- `get_place_details` of `database.py`:
`place.description if place and place.description else None` — a missing
row, a NULL description and an empty-string description all yield `None`. -/
def get_place_details (db : DB) (place_name : String) : Option String :=
  match db.places.find? (fun p => p.name == place_name) with
  | some p =>
    match p.description with
    | some d => if d.isEmpty then none else some d
    | none => none
  | none => none

/-- The upsert of `save_place_details` on the `places` list: on the first
row whose `name` matches, always overwrite `description`, and overwrite
`image_url` only when the supplied value is truthy (`if image_url:`);
otherwise append a new row carrying the supplied image value as is. -/
def putDetailList (place_name description : String) (image_url : Option String) :
    List Place → List Place
  | [] => [⟨place_name, some description, image_url⟩]
  | p :: ps =>
    if p.name == place_name then
      { p with
        description := some description
        image_url := if truthyStr image_url then image_url else p.image_url } :: ps
    else p :: putDetailList place_name description image_url ps

/-- `save_place_details` of `database.py`. -/
def save_place_details (db : DB) (place_name description : String)
    (image_url : Option String) : DB :=
  { db with places := putDetailList place_name description image_url db.places }

/-- Outcome of the Wikipedia HTTP call made by `get_wikipedia_image_url`:
either some exception was raised (transport error, `raise_for_status`,
missing JSON keys), or the parsed `query.pages` object, rendered as the
per-page optional `thumbnail.source` values in iteration order. -/
inductive HttpOutcome where
  | exn
  | pages (thumbs : List (Option String))
deriving DecidableEq, Repr

/-- `get_wikipedia_image_url` of `app.py`: on any exception return `None`;
otherwise return the `thumbnail.source` of the first page that has a
thumbnail, and `None` when no page does. -/
def get_wikipedia_image_url (outcome : HttpOutcome) : Option String :=
  match outcome with
  | .exn => none
  | .pages thumbs => thumbs.findSome? id

/-- A place object as parsed out of the generative backend's JSON answer
(before the enrichment loop adds `image_url` and `has_details`). -/
structure LLMPlace where
  name : String
  description : String
deriving DecidableEq, Repr

/-- Outcome of `model.generate_content(prompt)`: either the call raised, or
a response carrying `response.text` and its usage metadata.

Modelled from the spec for the token field: the external generative SDK's
`usage_metadata.total_token_count` accessor (library code, not in this
repository) reads a proto field that reports zero when the backend supplies
no token count, so the metadata is embedded as an optional count read with
a zero default. -/
inductive GenOutcome where
  | exn
  | resp (text : String) (tokens : Option Nat)
deriving DecidableEq, Repr

/-- `response.usage_metadata.total_token_count` as observed through the
external SDK: an absent count reads as zero. -/
def totalTokenCount : Option Nat → Nat
  | some n => n
  | none => 0

/-- Python's `str.lower()` (character-wise lower-casing), as used by
`search_places` in `app.py`. -/
def pyLower (s : String) : String :=
  ⟨s.data.map Char.toLower⟩

/-- Python's `str.strip()` (drop leading and trailing whitespace), as used
by `search_places` in `app.py`. -/
def pyStrip (s : String) : String :=
  ⟨((s.data.dropWhile Char.isWhitespace).reverse.dropWhile Char.isWhitespace).reverse⟩

/-- The key normalization `data['location'].strip().lower()` applied by
`search_places` in `app.py`. -/
def normalizeKey (raw : String) : String :=
  pyLower (pyStrip raw)

/-- The code-fence stripping applied by `search_places` before parsing:
`response.text.strip().replace("```json", "").replace("```", "")`. -/
def cleanResponse (text : String) : String :=
  ((pyStrip text).replace "```json" "").replace "```" ""

/-- The body of the enrichment loop of `search_places`: attach the
Wikipedia image for the place's name and set `has_details = False`. -/
def enrichPlace (wiki : String → HttpOutcome) (p : LLMPlace) : PlaceSummary :=
  { name := p.name
    description := p.description
    image_url := get_wikipedia_image_url (wiki p.name)
    has_details := false }

/-- An HTTP-level response of one of the two endpoints: a JSON payload or
an error body with its status code. -/
inductive ApiResponse (α : Type) where
  | ok (payload : α)
  | err (message : String) (status : Nat)
deriving DecidableEq, Repr

/-- Payload of a successful `/search-places` response. -/
structure SearchOk where
  places : List PlaceSummary
  token_count : Nat
deriving DecidableEq, Repr

/-- Payload of a successful `/place-details` response. -/
structure DetailOk where
  description : String
  token_count : Nat
deriving DecidableEq, Repr

/-- `search_places` of `app.py` (the `/search-places` endpoint).

Inputs describing the environment: `modelConfigured` is whether the global
`model` is non-`None`; `reqLocation` is the `location` field of the request
body (`none` when the body is falsy or the key is missing); `gen` is the
outcome of `model.generate_content`; `parse` is `json.loads` restricted to
the expected list-of-places shape (`none` when it raises); `wiki` gives the
HTTP outcome of the Wikipedia call per place name; `writeOk` is whether the
database commit inside `save_search_result` succeeds (a raised commit is
caught by the endpoint's `except` and leaves the database unchanged).

Returns the HTTP response together with the resulting database state. -/
def search_places (modelConfigured : Bool) (reqLocation : Option String)
    (gen : GenOutcome) (parse : String → Option (List LLMPlace))
    (wiki : String → HttpOutcome) (writeOk : Bool) (db : DB) :
    ApiResponse SearchOk × DB :=
  if !modelConfigured then (.err "AI Model not configured" 500, db)
  else
    match reqLocation with
    | none => (.err "Location not provided" 400, db)
    | some rawLoc =>
      let location := normalizeKey rawLoc
      let cached_places := get_cached_search db location
      if truthyList cached_places then
        (.ok ⟨cached_places.getD [], 0⟩, db)
      else
        match gen with
        | .exn => (.err "Failed to fetch places from AI model." 500, db)
        | .resp text tokens =>
          let token_count := totalTokenCount tokens
          match parse (cleanResponse text) with
          | none => (.err "Failed to fetch places from AI model." 500, db)
          | some places_from_llm =>
            let enriched := places_from_llm.map (enrichPlace wiki)
            if writeOk then
              (.ok ⟨enriched, token_count⟩, save_search_result db location enriched)
            else
              (.err "Failed to fetch places from AI model." 500, db)

/-- `get_place_details_route` of `app.py` (the `/place-details` endpoint).

`reqPlaceName` is the `place_name` field of the request body (`none` when
the body is falsy or the key is missing); `gen` is the outcome of
`model.generate_content` for the detail prompt; `writeOk` is whether the
commit inside `save_place_details` succeeds.  The generated text is passed
to the cache and the caller exactly as returned, with no validation. -/
def get_place_details_route (modelConfigured : Bool) (reqPlaceName : Option String)
    (gen : GenOutcome) (writeOk : Bool) (db : DB) :
    ApiResponse DetailOk × DB :=
  if !modelConfigured then (.err "AI Model not configured" 500, db)
  else
    match reqPlaceName with
    | none => (.err "Place name not provided" 400, db)
    | some place_name =>
      let cached_details := get_place_details db place_name
      if truthyStr cached_details then
        (.ok ⟨cached_details.getD "", 0⟩, db)
      else
        match gen with
        | .exn => (.err "Failed to generate details from AI model." 500, db)
        | .resp text tokens =>
          let token_count := totalTokenCount tokens
          if writeOk then
            (.ok ⟨text, token_count⟩, save_place_details db place_name text none)
          else
            (.err "Failed to generate details from AI model." 500, db)

/-! ### Store lemmas -/

/-- After the upsert `putSearchList`, the first row found for the key
carries exactly the written results. -/
lemma find?_putSearchList (k : String) (v : List PlaceSummary) (l : List Cache) :
    ((putSearchList k v l).find? (fun c => c.search_term == k)).map Cache.results
      = some v := by
  induction l with
  | nil => simp [putSearchList]
  | cons c cs ih =>
    by_cases h : (c.search_term == k) = true
    · simp [putSearchList, h]
    · simp only [putSearchList, h]
      rw [if_neg (by simp [h]), List.find?_cons_of_neg _ (by simp [h])]
      exact ih

/-- Reading the search cache right after `save_search_result` for the same
key returns the freshly written list. -/
lemma get_cached_search_save (db : DB) (k : String) (v : List PlaceSummary) :
    get_cached_search (save_search_result db k v) k = some v := by
  have h := find?_putSearchList k v db.caches
  unfold get_cached_search save_search_result
  cases hfind : (putSearchList k v db.caches).find? (fun c => c.search_term == k) with
  | none => rw [hfind] at h; simp at h
  | some c => rw [hfind] at h; simp at h; simp [hfind, h]

/-- After the upsert `putDetailList`, the first row found for the name is
the matched row with its description overwritten and its image overwritten
only on a truthy input — or, with no prior row, the freshly inserted row. -/
lemma find?_putDetailList (name desc : String) (img : Option String)
    (l : List Place) :
    (putDetailList name desc img l).find? (fun q => q.name == name) =
      some (match l.find? (fun q => q.name == name) with
        | some p =>
          { p with
            description := some desc
            image_url := if truthyStr img then img else p.image_url }
        | none => ⟨name, some desc, img⟩) := by
  induction l with
  | nil => simp [putDetailList]
  | cons p ps ih =>
    by_cases h : (p.name == name) = true
    · simp [putDetailList, h]
    · simp only [putDetailList]
      rw [if_neg (by simp [h]), List.find?_cons_of_neg _ (by simp [h]),
        List.find?_cons_of_neg _ (by simp [h])]
      exact ih

/-! ### Claims -/

/-- Claim C1: for a normalized location key whose search-cache entry is
populated (a stored, non-empty results list), two consecutive identical
search requests with no intervening cache mutation both return that same
results list with a token count of zero, the second independently of any
generation-side inputs (no generation call is consulted), and the database
is unchanged by both. -/
theorem claim_C1_idempotence (db : DB) (raw : String) (l : List PlaceSummary)
    (hcache : get_cached_search db (normalizeKey raw) = some l) (hne : l ≠ [])
    (g1 g2 : GenOutcome) (p1 p2 : String → Option (List LLMPlace))
    (w1 w2 : String → HttpOutcome) (wk1 wk2 : Bool) :
    search_places true (some raw) g1 p1 w1 wk1 db = (.ok ⟨l, 0⟩, db) ∧
    search_places true (some raw) g2 p2 w2 wk2
        (search_places true (some raw) g1 p1 w1 wk1 db).2 = (.ok ⟨l, 0⟩, db) := by
  obtain ⟨a, as, rfl⟩ := List.exists_cons_of_ne_nil hne
  have h1 : search_places true (some raw) g1 p1 w1 wk1 db = (.ok ⟨a :: as, 0⟩, db) := by
    simp [search_places, hcache, truthyList]
  refine ⟨h1, ?_⟩
  rw [h1]
  simp [search_places, hcache, truthyList]

/-- Witness for C1 on a concrete populated cache. -/
theorem claim_C1_idempotence_witness :
    get_cached_search ⟨[⟨"paris", [⟨"Louvre", "museum", none, false⟩]⟩], []⟩ (normalizeKey "Paris")
        = some [⟨"Louvre", "museum", none, false⟩] ∧
    search_places true (some "Paris") .exn (fun _ => none) (fun _ => .exn) true
        ⟨[⟨"paris", [⟨"Louvre", "museum", none, false⟩]⟩], []⟩
      = (.ok ⟨[⟨"Louvre", "museum", none, false⟩], 0⟩,
         ⟨[⟨"paris", [⟨"Louvre", "museum", none, false⟩]⟩], []⟩) := by
  refine ⟨by decide, ?_⟩
  exact (claim_C1_idempotence ⟨[⟨"paris", [⟨"Louvre", "museum", none, false⟩]⟩], []⟩
    "Paris" [⟨"Louvre", "museum", none, false⟩] (by decide) (by decide)
    .exn .exn (fun _ => none) (fun _ => none) (fun _ => .exn) (fun _ => .exn)
    true true).1

/-- Claim C6: a stored place-detail record whose description is absent or
the empty string is reported as a miss by `get_place_details`, and a detail
request for that name therefore runs generation (returning the freshly
generated text, not the empty stored description). -/
theorem claim_C6_empty_description_miss (db : DB) (name : String) (p : Place)
    (hfind : db.places.find? (fun q => q.name == name) = some p)
    (hdesc : p.description = none ∨ p.description = some "")
    (text : String) (tokens : Option Nat) :
    get_place_details db name = none ∧
    get_place_details_route true (some name) (.resp text tokens) true db
      = (.ok ⟨text, totalTokenCount tokens⟩, save_place_details db name text none) := by
  have hmiss : get_place_details db name = none := by
    unfold get_place_details
    rcases hdesc with h | h <;> simp [hfind, h, show "".isEmpty = true from rfl]
  refine ⟨hmiss, ?_⟩
  simp [get_place_details_route, hmiss, truthyStr]

/-- Witness for C6: a record for the Eiffel Tower stored with an empty
description is a miss and the request regenerates. -/
theorem claim_C6_empty_description_miss_witness :
    get_place_details ⟨[], [⟨"Eiffel Tower", some "", some "img"⟩]⟩ "Eiffel Tower" = none ∧
    get_place_details_route true (some "Eiffel Tower") (.resp "A tower." (some 9)) true
        ⟨[], [⟨"Eiffel Tower", some "", some "img"⟩]⟩
      = (.ok ⟨"A tower.", 9⟩,
         save_place_details ⟨[], [⟨"Eiffel Tower", some "", some "img"⟩]⟩
           "Eiffel Tower" "A tower." none) :=
  claim_C6_empty_description_miss ⟨[], [⟨"Eiffel Tower", some "", some "img"⟩]⟩
    "Eiffel Tower" ⟨"Eiffel Tower", some "", some "img"⟩ (by decide)
    (Or.inr (by decide)) "A tower." (some 9)

/-- Claim C7: on an existing place record, `save_place_details` always
overwrites the description, and overwrites the stored image URL exactly
when the supplied one is non-empty; an absent or empty supplied image
leaves the existing image unchanged. -/
theorem claim_C7_image_frame (db : DB) (name desc : String) (img : Option String)
    (p : Place) (hfind : db.places.find? (fun q => q.name == name) = some p) :
    (save_place_details db name desc img).places.find? (fun q => q.name == name) =
      some { p with
             description := some desc
             image_url := if truthyStr img then img else p.image_url } ∧
    ((img = none ∨ img = some "") →
      (save_place_details db name desc img).places.find? (fun q => q.name == name) =
        some { p with description := some desc, image_url := p.image_url }) := by
  have h := find?_putDetailList name desc img db.places
  rw [hfind] at h
  constructor
  · exact h
  · rintro (rfl | rfl) <;> simpa [truthyStr] using h

/-- Witness for C7: an empty supplied image leaves the stored image URL of
an existing record in place while the description is overwritten. -/
theorem claim_C7_image_frame_witness :
    (save_place_details ⟨[], [⟨"Louvre", some "old", some "pic.jpg"⟩]⟩
        "Louvre" "new" (some "")).places.find? (fun q => q.name == "Louvre") =
      some ⟨"Louvre", some "new", some "pic.jpg"⟩ :=
  (claim_C7_image_frame ⟨[], [⟨"Louvre", some "old", some "pic.jpg"⟩]⟩
    "Louvre" "new" (some "") ⟨"Louvre", some "old", some "pic.jpg"⟩ (by decide)).2
    (Or.inr rfl)

/-- Claim C5: the search key normalization is exactly strip-then-lowercase
(a pure function), the raw inputs `"Paris"`, `" paris "` and `"PARIS"` all
map to the key `"paris"`, and after a first successful population through
the `"Paris"` request the other two spellings hit the very same cache
entry: they return the same stored list with zero token count and leave
the database untouched, whatever their generation-side inputs. -/
theorem claim_C5_normalization (db : DB) (text : String) (tokens : Option Nat)
    (parse : String → Option (List LLMPlace)) (wiki : String → HttpOutcome)
    (ps : List LLMPlace)
    (hmiss : truthyList (get_cached_search db "paris") = false)
    (hparse : parse (cleanResponse text) = some ps) (hne : ps ≠ [])
    (g2 g3 : GenOutcome) (p2 p3 : String → Option (List LLMPlace))
    (w2 w3 : String → HttpOutcome) (wk2 wk3 : Bool) :
    normalizeKey "Paris" = "paris" ∧ normalizeKey " paris " = "paris" ∧
    normalizeKey "PARIS" = "paris" ∧
    search_places true (some "Paris") (.resp text tokens) parse wiki true db
      = (.ok ⟨ps.map (enrichPlace wiki), totalTokenCount tokens⟩,
         save_search_result db "paris" (ps.map (enrichPlace wiki))) ∧
    search_places true (some " paris ") g2 p2 w2 wk2
        (save_search_result db "paris" (ps.map (enrichPlace wiki)))
      = (.ok ⟨ps.map (enrichPlace wiki), 0⟩,
         save_search_result db "paris" (ps.map (enrichPlace wiki))) ∧
    search_places true (some "PARIS") g3 p3 w3 wk3
        (save_search_result db "paris" (ps.map (enrichPlace wiki)))
      = (.ok ⟨ps.map (enrichPlace wiki), 0⟩,
         save_search_result db "paris" (ps.map (enrichPlace wiki))) := by
  have hk1 : normalizeKey "Paris" = "paris" := by decide
  have hk2 : normalizeKey " paris " = "paris" := by decide
  have hk3 : normalizeKey "PARIS" = "paris" := by decide
  have hne' : ps.map (enrichPlace wiki) ≠ [] := by simpa using hne
  obtain ⟨a, as, hcons⟩ := List.exists_cons_of_ne_nil hne'
  have hsave := get_cached_search_save db "paris" (ps.map (enrichPlace wiki))
  refine ⟨hk1, hk2, hk3, ?_, ?_, ?_⟩
  · simp [search_places, hk1, hmiss, hparse]
  · rw [hcons] at hsave ⊢
    simp [search_places, hk2, hsave, truthyList]
  · rw [hcons] at hsave ⊢
    simp [search_places, hk3, hsave, truthyList]

/-- Witness for C5 on an empty database and a one-place generation. -/
theorem claim_C5_normalization_witness :
    normalizeKey "Paris" = "paris" ∧ normalizeKey " paris " = "paris" ∧
    normalizeKey "PARIS" = "paris" ∧
    search_places true (some "Paris") (.resp "t" (some 11))
        (fun _ => some [⟨"Louvre", "museum"⟩]) (fun _ => .exn) true ⟨[], []⟩
      = (.ok ⟨[⟨"Louvre", "museum"⟩].map (enrichPlace (fun _ => .exn)), totalTokenCount (some 11)⟩,
         save_search_result ⟨[], []⟩ "paris"
           ([⟨"Louvre", "museum"⟩].map (enrichPlace (fun _ => .exn)))) ∧
    search_places true (some " paris ") .exn (fun _ => none) (fun _ => .exn) false
        (save_search_result ⟨[], []⟩ "paris"
          ([⟨"Louvre", "museum"⟩].map (enrichPlace (fun _ => .exn))))
      = (.ok ⟨[⟨"Louvre", "museum"⟩].map (enrichPlace (fun _ => .exn)), 0⟩,
         save_search_result ⟨[], []⟩ "paris"
           ([⟨"Louvre", "museum"⟩].map (enrichPlace (fun _ => .exn)))) ∧
    search_places true (some "PARIS") .exn (fun _ => none) (fun _ => .exn) false
        (save_search_result ⟨[], []⟩ "paris"
          ([⟨"Louvre", "museum"⟩].map (enrichPlace (fun _ => .exn))))
      = (.ok ⟨[⟨"Louvre", "museum"⟩].map (enrichPlace (fun _ => .exn)), 0⟩,
         save_search_result ⟨[], []⟩ "paris"
           ([⟨"Louvre", "museum"⟩].map (enrichPlace (fun _ => .exn)))) :=
  claim_C5_normalization ⟨[], []⟩ "t" (some 11) (fun _ => some [⟨"Louvre", "museum"⟩])
    (fun _ => .exn) [⟨"Louvre", "museum"⟩] (by decide) rfl (by decide)
    .exn .exn (fun _ => none) (fun _ => none) (fun _ => .exn) (fun _ => .exn)
    false false

/-- Claim C4: when the generative backend's text does not parse as JSON
after code-fence stripping, the caller receives the endpoint's generic
500 error (its `GenerationError` surface) and the database — hence the
search cache — is completely unchanged, so a later request for the same
key still reaches generation and can succeed with fresh results. -/
theorem claim_C4_malformed_output (db : DB) (raw text : String)
    (tokens : Option Nat) (parse : String → Option (List LLMPlace))
    (wiki : String → HttpOutcome) (writeOk : Bool)
    (hmiss : truthyList (get_cached_search db (normalizeKey raw)) = false)
    (hparse : parse (cleanResponse text) = none)
    (text2 : String) (tokens2 : Option Nat)
    (parse2 : String → Option (List LLMPlace)) (wiki2 : String → HttpOutcome)
    (l2 : List LLMPlace) (hparse2 : parse2 (cleanResponse text2) = some l2) :
    search_places true (some raw) (.resp text tokens) parse wiki writeOk db
      = (.err "Failed to fetch places from AI model." 500, db) ∧
    search_places true (some raw) (.resp text2 tokens2) parse2 wiki2 true db
      = (.ok ⟨l2.map (enrichPlace wiki2), totalTokenCount tokens2⟩,
         save_search_result db (normalizeKey raw) (l2.map (enrichPlace wiki2))) := by
  constructor
  · simp [search_places, hmiss, hparse]
  · simp [search_places, hmiss, hparse2]

/-- Witness for C4: a failing parse errors without touching the empty
database; a retry with parsable output generates. -/
theorem claim_C4_malformed_output_witness :
    search_places true (some "rome") (.resp "not json" (some 3))
        (fun _ => none) (fun _ => .exn) true ⟨[], []⟩
      = (.err "Failed to fetch places from AI model." 500, ⟨[], []⟩) ∧
    search_places true (some "rome") (.resp "t2" (some 4))
        (fun _ => some [⟨"Colosseum", "arena"⟩]) (fun _ => .exn) true ⟨[], []⟩
      = (.ok ⟨[⟨"Colosseum", "arena"⟩].map (enrichPlace (fun _ => .exn)), totalTokenCount (some 4)⟩,
         save_search_result ⟨[], []⟩ (normalizeKey "rome")
           ([⟨"Colosseum", "arena"⟩].map (enrichPlace (fun _ => .exn)))) :=
  claim_C4_malformed_output ⟨[], []⟩ "rome" "not json" (some 3) (fun _ => none)
    (fun _ => .exn) true (by decide) rfl "t2" (some 4)
    (fun _ => some [⟨"Colosseum", "arena"⟩]) (fun _ => .exn)
    [⟨"Colosseum", "arena"⟩] rfl

/-- Claim C10: a cache row holding an empty results list is treated as a
miss by the search endpoint — Python's truthiness test on the returned
list sends the request down the generation path, which returns the fresh
results and rewrites the cache, instead of answering with the cached empty
list at zero cost. -/
theorem claim_C10_empty_results_miss (db : DB) (raw text : String)
    (tokens : Option Nat) (parse : String → Option (List LLMPlace))
    (wiki : String → HttpOutcome) (l : List LLMPlace)
    (hempty : get_cached_search db (normalizeKey raw) = some [])
    (hparse : parse (cleanResponse text) = some l) :
    search_places true (some raw) (.resp text tokens) parse wiki true db
      = (.ok ⟨l.map (enrichPlace wiki), totalTokenCount tokens⟩,
         save_search_result db (normalizeKey raw) (l.map (enrichPlace wiki))) := by
  simp [search_places, hempty, truthyList, hparse]

/-- Witness for C10: a stored empty list for `"paris"` regenerates. -/
theorem claim_C10_empty_results_miss_witness :
    search_places true (some "paris") (.resp "t" (some 6))
        (fun _ => some [⟨"Louvre", "museum"⟩]) (fun _ => .exn) true ⟨[⟨"paris", []⟩], []⟩
      = (.ok ⟨[⟨"Louvre", "museum"⟩].map (enrichPlace (fun _ => .exn)), totalTokenCount (some 6)⟩,
         save_search_result ⟨[⟨"paris", []⟩], []⟩ (normalizeKey "paris")
           ([⟨"Louvre", "museum"⟩].map (enrichPlace (fun _ => .exn)))) :=
  claim_C10_empty_results_miss ⟨[⟨"paris", []⟩], []⟩ "paris" "t" (some 6)
    (fun _ => some [⟨"Louvre", "museum"⟩]) (fun _ => .exn) [⟨"Louvre", "museum"⟩]
    (by decide) rfl

/-- Claim C3: when the generation response carries no token-usage count
(the SDK metadata accessor then reads zero), both the search endpoint and
the detail endpoint succeed and report a token count of zero to the
caller instead of failing the request. -/
theorem claim_C3_absent_tokens_zero (db db2 : DB) (raw text name dtext : String)
    (parse : String → Option (List LLMPlace)) (wiki : String → HttpOutcome)
    (l : List LLMPlace)
    (hmiss : truthyList (get_cached_search db (normalizeKey raw)) = false)
    (hparse : parse (cleanResponse text) = some l)
    (hmiss2 : truthyStr (get_place_details db2 name) = false) :
    (search_places true (some raw) (.resp text none) parse wiki true db).1
      = .ok ⟨l.map (enrichPlace wiki), 0⟩ ∧
    (get_place_details_route true (some name) (.resp dtext none) true db2).1
      = .ok ⟨dtext, 0⟩ := by
  constructor
  · simp [search_places, hmiss, hparse, totalTokenCount]
  · simp [get_place_details_route, hmiss2, totalTokenCount]

/-- Witness for C3 on empty databases. -/
theorem claim_C3_absent_tokens_zero_witness :
    (search_places true (some "rome") (.resp "t" none)
        (fun _ => some [⟨"Colosseum", "arena"⟩]) (fun _ => .exn) true ⟨[], []⟩).1
      = .ok ⟨[⟨"Colosseum", "arena"⟩].map (enrichPlace (fun _ => .exn)), 0⟩ ∧
    (get_place_details_route true (some "Colosseum") (.resp "An arena." none) true ⟨[], []⟩).1
      = .ok ⟨"An arena.", 0⟩ :=
  claim_C3_absent_tokens_zero ⟨[], []⟩ ⟨[], []⟩ "rome" "t" "Colosseum" "An arena."
    (fun _ => some [⟨"Colosseum", "arena"⟩]) (fun _ => .exn) [⟨"Colosseum", "arena"⟩]
    (by decide) rfl (by decide)

/-- Claim C8: with a successful generation, the request succeeds whatever
the per-place image lookups do; each returned place carries exactly the
image produced by the lookup on its own name (so one failing lookup leaves
every other place's image intact), and a failing lookup yields an absent
image field rather than an error. -/
theorem claim_C8_enrichment_resilience (db : DB) (raw text : String)
    (tokens : Option Nat) (parse : String → Option (List LLMPlace))
    (wiki : String → HttpOutcome) (l : List LLMPlace)
    (hmiss : truthyList (get_cached_search db (normalizeKey raw)) = false)
    (hparse : parse (cleanResponse text) = some l) :
    (search_places true (some raw) (.resp text tokens) parse wiki true db).1
      = .ok ⟨l.map (enrichPlace wiki), totalTokenCount tokens⟩ ∧
    (∀ (j : Nat) (p : LLMPlace), l[j]? = some p →
      (l.map (enrichPlace wiki))[j]? = some (enrichPlace wiki p)) ∧
    (∀ p : LLMPlace, wiki p.name = .exn → (enrichPlace wiki p).image_url = none) := by
  refine ⟨?_, ?_, ?_⟩
  · simp [search_places, hmiss, hparse]
  · intro j p hj
    simp [hj]
  · intro p hp
    simp [enrichPlace, hp, get_wikipedia_image_url]

/-- A concrete image-lookup world for the C8 witness: the lookup raises
for `"B"` and finds a thumbnail for every other name. -/
def wikiOneFail : String → HttpOutcome :=
  fun n => if n = "B" then .exn else .pages [some "u"]

/-- Witness for C8: with the lookup failing on the second of two places,
the request succeeds, the second place's image is absent, and the first
place keeps its own lookup result. -/
theorem claim_C8_enrichment_resilience_witness :
    (search_places true (some "x") (.resp "t" (some 4))
        (fun _ => some [⟨"A", "a"⟩, ⟨"B", "b"⟩]) wikiOneFail true ⟨[], []⟩).1
      = .ok ⟨[⟨"A", "a"⟩, ⟨"B", "b"⟩].map (enrichPlace wikiOneFail), totalTokenCount (some 4)⟩ ∧
    ([⟨"A", "a"⟩, ⟨"B", "b"⟩].map (enrichPlace wikiOneFail))[1]?
      = some (enrichPlace wikiOneFail ⟨"B", "b"⟩) ∧
    (enrichPlace wikiOneFail ⟨"B", "b"⟩).image_url = none ∧
    (enrichPlace wikiOneFail ⟨"A", "a"⟩).image_url = some "u" := by
  have h := claim_C8_enrichment_resilience ⟨[], []⟩ "x" "t" (some 4)
    (fun _ => some [⟨"A", "a"⟩, ⟨"B", "b"⟩]) wikiOneFail [⟨"A", "a"⟩, ⟨"B", "b"⟩]
    (by decide) rfl
  exact ⟨h.1, h.2.1 1 ⟨"B", "b"⟩ (by decide), h.2.2 ⟨"B", "b"⟩ (by decide), by decide⟩

/-- A parse world returning one well-formed place for any text, used by
the C2 counterexample to make generation, validation and enrichment
succeed. -/
def parseOnePlace : String → Option (List LLMPlace) :=
  fun _ => some [⟨"Louvre", "museum"⟩]

/-- An image-lookup world whose HTTP call always raises. -/
def wikiAlwaysFail : String → HttpOutcome :=
  fun _ => .exn

/-- Counterexample to claim C2: on an empty cache, with a generation that
parses to one place and a failing cache write, `search_places` answers
with the generic 500 error and not with the already-generated results and
their token count — the in-flight request is failed by a write failure
(the commit raises inside the endpoint's `try` block). -/
theorem claim_C2_counterexample :
    parseOnePlace (cleanResponse "[x]") = some [⟨"Louvre", "museum"⟩] ∧
    search_places true (some "paris") (.resp "[x]" (some 7)) parseOnePlace
        wikiAlwaysFail false ⟨[], []⟩
      = (.err "Failed to fetch places from AI model." 500, ⟨[], []⟩) ∧
    search_places true (some "paris") (.resp "[x]" (some 7)) parseOnePlace
        wikiAlwaysFail false ⟨[], []⟩
      ≠ (.ok ⟨[⟨"Louvre", "museum", none, false⟩], 7⟩, ⟨[], []⟩) := by
  refine ⟨rfl, by decide, by decide⟩

/-- Claim C2 as amended: when the cache write fails after a successful
generation, validation and enrichment, the endpoint returns its generic
500 error — the already-generated results are discarded, not returned —
and the database is unchanged. -/
theorem claim_C2_amended_write_failure (db : DB) (raw text : String)
    (tokens : Option Nat) (parse : String → Option (List LLMPlace))
    (wiki : String → HttpOutcome) (l : List LLMPlace)
    (hmiss : truthyList (get_cached_search db (normalizeKey raw)) = false)
    (hparse : parse (cleanResponse text) = some l) :
    search_places true (some raw) (.resp text tokens) parse wiki false db
      = (.err "Failed to fetch places from AI model." 500, db) := by
  simp [search_places, hmiss, hparse]

/-- Witness for the amended C2. -/
theorem claim_C2_amended_write_failure_witness :
    search_places true (some "paris") (.resp "[x]" (some 7)) parseOnePlace
        wikiAlwaysFail false ⟨[], []⟩
      = (.err "Failed to fetch places from AI model." 500, ⟨[], []⟩) :=
  claim_C2_amended_write_failure ⟨[], []⟩ "paris" "[x]" (some 7) parseOnePlace
    wikiAlwaysFail [⟨"Louvre", "museum"⟩] (by decide) rfl

/-- Counterexample to claim C9: on an empty store, a generation returning
the empty string is not rejected — the detail endpoint returns the empty
description with its token count and writes an empty-description record
to the store. -/
theorem claim_C9_counterexample :
    get_place_details_route true (some "Eiffel Tower") (.resp "" (some 5)) true ⟨[], []⟩
      = (.ok ⟨"", 5⟩, ⟨[], [⟨"Eiffel Tower", some "", none⟩]⟩) ∧
    get_place_details_route true (some "Eiffel Tower") (.resp "" (some 5)) true ⟨[], []⟩
      ≠ (.err "Failed to generate details from AI model." 500, ⟨[], []⟩) := by
  constructor
  · decide
  · decide

/-- Claim C9 as amended: the detail endpoint performs no validation of the
generated text — an empty generated description is returned to the caller
with its token count and written to the store; the empty stored
description is then treated as a miss by `get_place_details` on any later
read, so the poisoning is limited to one wasted write. -/
theorem claim_C9_amended_no_validation (db : DB) (name : String)
    (tokens : Option Nat)
    (hmiss : truthyStr (get_place_details db name) = false) :
    get_place_details_route true (some name) (.resp "" tokens) true db
      = (.ok ⟨"", totalTokenCount tokens⟩, save_place_details db name "" none) ∧
    get_place_details (save_place_details db name "" none) name = none := by
  constructor
  · simp [get_place_details_route, hmiss]
  · unfold get_place_details
    rw [show (save_place_details db name "" none).places
        = putDetailList name "" none db.places from rfl]
    rw [find?_putDetailList]
    cases db.places.find? (fun q => q.name == name) <;>
      simp [show "".isEmpty = true from rfl]

/-- Witness for the amended C9. -/
theorem claim_C9_amended_no_validation_witness :
    (get_place_details_route true (some "Eiffel Tower") (.resp "" (some 5)) true ⟨[], []⟩
      = (.ok ⟨"", totalTokenCount (some 5)⟩,
         save_place_details ⟨[], []⟩ "Eiffel Tower" "" none)) ∧
    get_place_details (save_place_details ⟨[], []⟩ "Eiffel Tower" "" none) "Eiffel Tower"
      = none :=
  claim_C9_amended_no_validation ⟨[], []⟩ "Eiffel Tower" (some 5) (by decide)

end Travel
